import Mathlib

/-!
Shallow embedding of the `prana-api` Python client (package `prana_api`):
the data model (`models.py`), JWT handling (`auth.py`) and the pure
decision logic of `client.py`, together with theorems settling the
specification claims about them.

JSON-like Python values are modelled by the inductive `JVal`; Python's
`None` is `JVal.null`.  Machine floating point is not modelled: the only
numeric values carried through the embedding are integers (the float
round-trip `int(float(v))` is the identity on the integer range the
device protocol uses), and the two float-typed sensor fields
(`humidity`, `temperature`) are omitted from the embedded state since no
claim mentions them.
-/

namespace Prana

/-- JSON-like Python value (dicts with string keys, as produced by
`response.json()`).  `null` doubles as Python `None`. -/
inductive JVal where
  | null : JVal
  | bool (b : Bool) : JVal
  | int (n : Int) : JVal
  | str (s : String) : JVal
  | list (xs : List JVal) : JVal
  | obj (fields : List (String × JVal)) : JVal

/-- Python truthiness (`bool(v)`) on the modelled values: `None`, `False`,
`0`, `""`, `[]` and `{}` are falsy, everything else truthy. -/
def jTruthy : JVal → Bool
  | .null => false
  | .bool b => b
  | .int n => n != 0
  | .str s => s != ""
  | .list xs => !xs.isEmpty
  | .obj fs => !fs.isEmpty

/-- Python `v is None`. -/
def JVal.isNull : JVal → Bool
  | .null => true
  | _ => false

/-- Python `value == key` where `key` is a `str`: true only when the value
is an equal string (values of other types never equal a string). -/
def JVal.eqStr : JVal → String → Bool
  | .str s, k => s == k
  | _, _ => false

/-- Models `d.get(key)`: the stored value when the key is present (which may be
`null`), `None` otherwise. -/
def jGet (fs : List (String × JVal)) (k : String) : JVal :=
  match fs.find? (fun p => p.1 == k) with
  | some p => p.2
  | none => .null

/-- Models `d.get(key, default)`: stored value when present, `default` otherwise. -/
def jGetD (fs : List (String × JVal)) (k : String) (d : JVal) : JVal :=
  match fs.find? (fun p => p.1 == k) with
  | some p => p.2
  | none => d

/-- Models `key in d` for a Python dict. -/
def hasKey (fs : List (String × JVal)) (k : String) : Bool :=
  (fs.find? (fun p => p.1 == k)).isSome

/-- Embeds `models.py`, `EntityId`: entity identifier.  Field values are kept as
raw `JVal` because `dict.get` can surface values of any type. -/
structure EntityId where
  id : JVal
  entity_type : JVal

/-- Embeds `models.py`, `EntityId.from_dict`. -/
def EntityId.from_dict (data : List (String × JVal)) : EntityId :=
  { id := jGetD data "id" (.str ""),
    entity_type := jGetD data "entityType" (.str "") }

/-- Embeds `models.py`, `TokenPair`: JWT token pair returned by authentication. -/
structure TokenPair where
  access_token : JVal
  refresh_token : JVal
  token_type : JVal

/-- Embeds `models.py`, `TokenPair.from_response`:
`access_token = data.get("token", data.get("accessToken", ""))`,
`refresh_token = data.get("refreshToken", "")`,
`token_type = data.get("tokenType", "Bearer")`. -/
def TokenPair.from_response (data : List (String × JVal)) : TokenPair :=
  { access_token := jGetD data "token" (jGetD data "accessToken" (.str "")),
    refresh_token := jGetD data "refreshToken" (.str ""),
    token_type := jGetD data "tokenType" (.str "Bearer") }

/-- Embeds `models.py`, `PranaState.from_telemetry` argument shapes: attributes
arrive either as a flat dict `{key: value}` or as a list of
`{key, value}` records. -/
inductive Attrs where
  | dict (d : List (String × JVal)) : Attrs
  | list (l : List (List (String × JVal))) : Attrs

/-- Python truthiness of the attributes argument (empty dict or empty
list is falsy). -/
def attrsTruthy : Attrs → Bool
  | .dict d => !d.isEmpty
  | .list l => !l.isEmpty

/-- Models `attributes = attributes or {}` at the top of `from_telemetry`:
`None` or a falsy (empty) container is replaced by the empty dict. -/
def normAttrs : Option Attrs → Attrs
  | none => .dict []
  | some a => if attrsTruthy a then a else .dict []

/-- Embeds `from_telemetry`, inner `get_telemetry_value`: latest value from the
`{key: [{ts, value}]}` telemetry snapshot.  Returns `null` (Python
`None`) when the key is missing or its entry is falsy; for a non-empty
list takes the first element's `"value"` field when that element is a
dict, the element itself otherwise; a non-list truthy entry is returned
as is. -/
def get_telemetry_value (telemetry : List (String × JVal)) (key : String) : JVal :=
  match telemetry.find? (fun p => p.1 == key) with
  | some p =>
    if jTruthy p.2 then
      match p.2 with
      | .list (v :: _) =>
        match v with
        | .obj d => jGet d "value"
        | _ => v
      | other => other
    else .null
  | none => .null

/-- Embeds `from_telemetry`, inner `get_attr_value`: value from the attribute
snapshot; handles both the flat-dict shape and the list-of-`{key,value}`
shape (first record whose `"key"` equals the key wins). -/
def get_attr_value (attributes : Attrs) (key : String) : JVal :=
  match attributes with
  | .dict d => jGet d key
  | .list l =>
    match l.find? (fun attr => (jGet attr "key").eqStr key) with
    | some attr => jGet attr "value"
    | none => .null

/-- Embeds `from_telemetry`, inner `get_value`: telemetry first, attributes as
fallback when telemetry yields `None`. -/
def get_value (telemetry : List (String × JVal)) (attributes : Attrs)
    (key : String) : JVal :=
  let val := get_telemetry_value telemetry key
  if val.isNull then get_attr_value attributes key else val

/-- Python `s.lower()` (ASCII lowercasing; the scanned texts are ASCII),
implemented structurally over the character list. -/
def strToLower (s : String) : String :=
  String.mk (s.toList.map Char.toLower)

/-- Embeds `from_telemetry`, inner `get_bool`: absent is `False`; booleans pass
through; numbers are `True` iff `>= 1`; strings are `True` iff the
lowercase form is one of `"true"`, `"1"`, `"yes"` (the extra `val == "1"`
test in the source is subsumed); other values take their truthiness. -/
def get_bool (telemetry : List (String × JVal)) (attributes : Attrs)
    (key : String) : Bool :=
  match get_value telemetry attributes key with
  | .null => false
  | .bool b => b
  | .int n => n ≥ 1
  | .str s =>
    strToLower s == "true" || strToLower s == "1" || strToLower s == "yes" || s == "1"
  | v => jTruthy v

/-- Models `int(float(val))` on the modelled values.  Integers are the identity
(floats are not modelled; the round-trip is exact on the protocol's
range), booleans coerce to `1`/`0`, and a string parses when it is a
decimal integer literal (float-literal strings are not modelled); lists
and dicts raise `TypeError`, caught by the caller, hence `none`. -/
def pyIntOfFloat : JVal → Option Int
  | .null => none
  | .bool b => some (if b then 1 else 0)
  | .int n => some n
  | .str s => s.toInt?
  | .list _ => none
  | .obj _ => none

/-- Embeds `from_telemetry`, inner `get_int`: `None` stays `None`, otherwise
`int(float(val))` with conversion failures mapped to `None`. -/
def get_int (telemetry : List (String × JVal)) (attributes : Attrs)
    (key : String) : Option Int :=
  match get_value telemetry attributes key with
  | .null => none
  | v => pyIntOfFloat v

/-- Python `x or 0` on an optional integer: `None` and `0` give `0`,
anything else passes through. -/
def pyOr0 : Option Int → Int
  | none => 0
  | some n => if n != 0 then n else 0

/-- Embeds `models.py`, `PranaState` (decoded device state).  The float-typed
sensor fields (`humidity`, `temperature`) and the raw passthrough maps
are omitted (floating point is outside the model and no claim touches
them); `last_activity_time` is kept as the raw epoch-milliseconds
argument of the abstracted `datetime.fromtimestamp` call. -/
structure PranaState where
  supply_speed : Option Int
  extract_speed : Option Int
  is_power_on : Bool
  is_auto_mode : Bool
  is_bounded_mode : Bool
  is_night_mode : Bool
  is_heater_on : Bool
  is_sleep_timer : Bool
  sleep_seconds : Int
  brightness : Option Int
  co2 : Option Int
  voc : Option Int
  pressure : Option Int
  is_online : Bool
  is_defrosting : Bool
  wifi_rssi : Option Int
  firmware_version : Option Int
  last_activity_ms : Option Int

/-- Handling of `lastActivityTime` in `from_telemetry`: the attribute value,
when truthy and numeric, is kept (as the millisecond argument passed to
`datetime.fromtimestamp`); conversion failures are swallowed. -/
def lastActivityOf (attributes : Attrs) : Option Int :=
  match get_attr_value attributes "lastActivityTime" with
  | .int n => if n != 0 then some n else none
  | .bool b => if b then some 1 else none
  | _ => none

/-- Embeds `models.py`, `PranaState.from_telemetry`: decode a state from a
telemetry snapshot and an optional attribute snapshot. -/
def PranaState.from_telemetry (telemetry : List (String × JVal))
    (attributes : Option Attrs) : PranaState :=
  let a := normAttrs attributes
  let sleep_lsb := pyOr0 (get_int telemetry a "sleepSecondsLsb")
  let sleep_msb := pyOr0 (get_int telemetry a "sleepSecondsMsb")
  let raw_supply := get_int telemetry a "motorsSup"
  let raw_extract := get_int telemetry a "motorsExt"
  { supply_speed :=
      match raw_supply with
      | some r => some (Int.fdiv r 10)
      | none => none,
    extract_speed :=
      match raw_extract with
      | some r => some (Int.fdiv r 10)
      | none => none,
    is_power_on := get_bool telemetry a "powerPosition",
    is_auto_mode := get_bool telemetry a "autoModePosition",
    is_bounded_mode := get_bool telemetry a "boundedModePosition",
    is_night_mode := get_bool telemetry a "nightModePosition",
    is_heater_on := get_bool telemetry a "heaterPosition",
    is_sleep_timer := get_bool telemetry a "sleepPosition",
    sleep_seconds := sleep_lsb + sleep_msb * 256,
    brightness := get_int telemetry a "brightnessPosition",
    co2 := get_int telemetry a "co2",
    voc := get_int telemetry a "voc",
    pressure := get_int telemetry a "pressure",
    is_online := get_bool telemetry a "active",
    is_defrosting := get_bool telemetry a "defrostingPosition",
    wifi_rssi := get_int telemetry a "wifi_rssi",
    firmware_version := get_int telemetry a "fw_version",
    last_activity_ms := lastActivityOf a }

/-- Python `token.split(".")` (structural implementation over the
character list, so that it evaluates inside the kernel). -/
def splitOnDotAux : List Char → List Char → List String
  | [], acc => [String.mk acc.reverse]
  | c :: cs, acc =>
    if c = '.' then String.mk acc.reverse :: splitOnDotAux cs []
    else splitOnDotAux cs (c :: acc)

/-- Python `token.split(".")`. -/
def splitOnDot (s : String) : List String :=
  splitOnDotAux s.toList []

/-- Embeds `auth.py`, `decode_jwt_payload`, padding step:
`padding = 4 - len(payload) % 4; if padding != 4: payload += "=" * padding`. -/
def padB64 (payload : String) : String :=
  let padding := 4 - payload.length % 4
  if padding ≠ 4 then payload ++ String.mk (List.replicate padding '=') else payload

/-- Embeds `auth.py`, `decode_jwt_payload`: split the token on dots, require
exactly three segments, base64-decode the second and parse it as JSON;
every failure is caught and yields the empty dict.  The byte-level step
`json.loads(base64.urlsafe_b64decode(payload))` is abstracted as the
`decodePart` parameter, whose `none` covers bad base64 and bad JSON
(a JSON-decodable non-object payload is outside the model). -/
def decode_jwt_payload (decodePart : String → Option (List (String × JVal)))
    (token : String) : List (String × JVal) :=
  match splitOnDot token with
  | [_, payload, _] =>
    match decodePart (padB64 payload) with
    | some obj => obj
    | none => []
  | _ => []

/-- Embeds `auth.py`, `get_user_id_from_token`: `payload.get("userId")`. -/
def get_user_id_from_token (decodePart : String → Option (List (String × JVal)))
    (token : String) : JVal :=
  jGet (decode_jwt_payload decodePart token) "userId"

/-- Embeds `auth.py`, `get_customer_id_from_token`: `payload.get("customerId")`. -/
def get_customer_id_from_token (decodePart : String → Option (List (String × JVal)))
    (token : String) : JVal :=
  jGet (decode_jwt_payload decodePart token) "customerId"

/-- Embeds `auth.py`, `get_token_expiry`: `payload.get("exp")`. -/
def get_token_expiry (decodePart : String → Option (List (String × JVal)))
    (token : String) : JVal :=
  jGet (decode_jwt_payload decodePart token) "exp"

/-- Embeds `auth.py`, `is_token_expired`: empty payload or falsy `exp` report
expired; an integer `exp` compares `time.time() >= exp - buffer_seconds`
(`now` models `time.time()`, which is nonnegative); a truthy `exp` of
any non-numeric type makes the Python subtraction raise an uncaught
`TypeError`, modelled as `none`. -/
def is_token_expired (decodePart : String → Option (List (String × JVal)))
    (now : Int) (token : String) (buffer_seconds : Int) : Option Bool :=
  let payload := decode_jwt_payload decodePart token
  if payload.isEmpty then some true
  else
    match jGet payload "exp" with
    | .int e => if e != 0 then some (decide (now ≥ e - buffer_seconds)) else some true
    | .bool b => if b then some (decide (now ≥ 1 - buffer_seconds)) else some true
    | .null => some true
    | .str s => if s != "" then none else some true
    | .list xs => if !xs.isEmpty then none else some true
    | .obj fs => if !fs.isEmpty then none else some true

/-- Leading-match test on character lists. -/
def charsLeading : List Char → List Char → Bool
  | [], _ => true
  | _ :: _, [] => false
  | a :: as, b :: bs => a = b && charsLeading as bs

/-- Contiguous-substring occurrence test on character lists. -/
def charsWithin (needle : List Char) : List Char → Bool
  | [] => charsLeading needle []
  | c :: cs => charsLeading needle (c :: cs) || charsWithin needle cs

/-- Python substring test `needle in haystack`. -/
def strContains (haystack needle : String) : Bool :=
  charsWithin needle.toList haystack.toList

/-- The exception kind raised by `client.py`, `PranaClient._handle_response`
for a 401 response (`exceptions.py` subclasses of `AuthenticationError`,
plus the generic base class as fallback). -/
inductive AuthErrorKind where
  | invalidCredentials : AuthErrorKind
  | userNotActive : AuthErrorKind
  | tokenExpired : AuthErrorKind
  | authenticationFailed : AuthErrorKind
deriving DecidableEq, Repr

/-- Embeds `client.py`, `PranaClient._handle_response`, 401 branch: classify the
extracted message text.  `"Invalid username or password" in message`,
then `"not active" in message`, then `"expired" in message.lower()`,
else the generic `AuthenticationError`. -/
def classify401 (message : String) : AuthErrorKind :=
  if strContains message "Invalid username or password" then .invalidCredentials
  else if strContains message "not active" then .userNotActive
  else if strContains (strToLower message) "expired" then .tokenExpired
  else .authenticationFailed

/-- Modelled from the claim's words (for comparison with `classify401`):
scan case-sensitively for `"Invalid username or password"`, then
case-INsensitively for `"not active"`, then case-insensitively for
`"expired"`, else the generic kind. -/
def classify401Claim (message : String) : AuthErrorKind :=
  if strContains message "Invalid username or password" then .invalidCredentials
  else if strContains (strToLower message) "not active" then .userNotActive
  else if strContains (strToLower message) "expired" then .tokenExpired
  else .authenticationFailed

/-- Ordered matching rules of the amended claim: needle, whether the scan
is case-sensitive, resulting kind.  Only the `"expired"` scan is
case-insensitive. -/
def classify401Rules : List (String × Bool × AuthErrorKind) :=
  [("Invalid username or password", true, .invalidCredentials),
   ("not active", true, .userNotActive),
   ("expired", false, .tokenExpired)]

/-- Amended-claim classifier: first rule whose needle occurs in the
message (lowercasing both sides for a case-insensitive rule) wins;
generic authentication failure when none matches. -/
def classify401Amended (message : String) : AuthErrorKind :=
  match classify401Rules.find?
      (fun r => if r.2.1 then strContains message r.1
                else strContains (strToLower message) (strToLower r.1)) with
  | some r => r.2.2
  | none => .authenticationFailed

/-- Coerce a `JVal` to a Python dict, `none` when the value is of
another type (an attribute access on it would raise). -/
def jAsObj : JVal → Option (List (String × JVal))
  | .obj fs => some fs
  | _ => none

/-- Coerce a `JVal` to a number usable in Python arithmetic (`bool` is
numeric in Python); `none` models an uncaught `TypeError`. -/
def jAsNum : JVal → Option Int
  | .int n => some n
  | .bool b => some (if b then 1 else 0)
  | _ => none

/-- The `if data.get(key): x = EntityId.from_dict(data[key])` pattern of
`User.from_dict` / `Device.from_dict`: falsy value keeps the field
`None`; a truthy dict is converted; a truthy non-dict would raise
(outer `none`). -/
def optEntityField (data : List (String × JVal)) (key : String) :
    Option (Option EntityId) :=
  if jTruthy (jGet data key) then
    match jAsObj (jGet data key) with
    | some d => some (some (EntityId.from_dict d))
    | none => none
  else some none

/-- The `if data.get("createdTime"): created_time = datetime.fromtimestamp
(data["createdTime"] / 1000)` pattern: a falsy value (including a present
`0`) keeps the field `None`; a truthy numeric value is kept as the raw
epoch-milliseconds argument (`datetime` itself is abstracted); a truthy
non-numeric value would raise (outer `none`). -/
def optCreatedTime (data : List (String × JVal)) : Option (Option Int) :=
  if jTruthy (jGet data "createdTime") then
    match jAsNum (jGet data "createdTime") with
    | some n => some (some n)
    | none => none
  else some none

/-- Embeds `models.py`, `User` (fields the embedding carries; `created_time`
holds the raw epoch-milliseconds of the abstracted `datetime`). -/
structure User where
  id : EntityId
  email : JVal
  name : JVal
  first_name : JVal
  last_name : JVal
  authority : JVal
  customer_id : Option EntityId
  tenant_id : Option EntityId
  additional_info : JVal
  created_time : Option Int

/-- Embeds `models.py`, `User.from_dict`; `none` models the paths on which the
Python code raises (truthy non-dict id/customerId/tenantId, truthy
non-numeric createdTime). -/
def User.from_dict (data : List (String × JVal)) : Option User :=
  match optEntityField data "customerId", optEntityField data "tenantId",
      optCreatedTime data, jAsObj (jGetD data "id" (.obj [])) with
  | some cust, some ten, some ct, some idd =>
    some { id := EntityId.from_dict idd,
           email := jGetD data "email" (.str ""),
           name := jGetD data "name" (.str ""),
           first_name := jGetD data "firstName" (.str ""),
           last_name := jGetD data "lastName" (.str ""),
           authority := jGetD data "authority" (.str ""),
           customer_id := cust,
           tenant_id := ten,
           additional_info := jGetD data "additionalInfo" (.obj []),
           created_time := ct }
  | _, _, _, _ => none

/-- Embeds `models.py`, `Device` (fields the embedding carries; `created_time`
holds the raw epoch-milliseconds of the abstracted `datetime`). -/
structure Device where
  id : EntityId
  name : JVal
  type : JVal
  label : JVal
  device_profile_id : Option EntityId
  customer_id : Option EntityId
  tenant_id : Option EntityId
  device_data : JVal
  additional_info : JVal
  created_time : Option Int

/-- Embeds `models.py`, `Device.from_dict`; `none` models the paths on which the
Python code raises. -/
def Device.from_dict (data : List (String × JVal)) : Option Device :=
  match optEntityField data "deviceProfileId", optEntityField data "customerId",
      optEntityField data "tenantId", optCreatedTime data,
      jAsObj (jGetD data "id" (.obj [])) with
  | some prof, some cust, some ten, some ct, some idd =>
    some { id := EntityId.from_dict idd,
           name := jGetD data "name" (.str ""),
           type := jGetD data "type" (.str ""),
           label := jGet data "label",
           device_profile_id := prof,
           customer_id := cust,
           tenant_id := ten,
           device_data := jGetD data "deviceData" (.obj []),
           additional_info := jGetD data "additionalInfo" (.obj []),
           created_time := ct }
  | _, _, _, _, _ => none

/-- Embeds `auth.py`, `TokenManager`: the locally held token pair
(`None` when cleared). -/
structure TokenManager where
  token_pair : Option TokenPair

/-- Embeds `auth.py`, `TokenManager.is_authenticated`:
`self._token_pair is not None and self._token_pair.access_token`
(Python truthiness of the stored access token). -/
def TokenManager.is_authenticated (m : TokenManager) : Bool :=
  match m.token_pair with
  | some p => jTruthy p.access_token
  | none => false

/-- Embeds `auth.py`, `TokenManager.clear_tokens`: `self._token_pair = None`. -/
def TokenManager.clear_tokens (_ : TokenManager) : TokenManager :=
  { token_pair := none }

/-- Outcome of the remote logout HTTP request (`client.py`,
`PranaClient.logout` body): success, or any raised exception carrying a
message. -/
inductive ReqOutcome where
  | success : ReqOutcome
  | failure (msg : String) : ReqOutcome

/-- Embeds `client.py`, `PranaClient.logout`: `try: await self._request(...)
finally: self._token_manager.clear_tokens()` — the cleanup runs on every
outcome; a raised exception is re-raised afterwards (second component). -/
def logout (m : TokenManager) (remote : ReqOutcome) :
    TokenManager × Option String :=
  match remote with
  | .success => (m.clear_tokens, none)
  | .failure e => (m.clear_tokens, some e)

/-- Observable steps of `client.py`, `PranaClient.get_user_devices`. -/
inductive DevAction where
  | fetchUserInfo : DevAction
  | raiseConfigError : DevAction
  | listDevices (cid : JVal) : DevAction

/-- Embeds `client.py`, `PranaClient.get_user_devices`, customer-id resolution:
take `customer_id` from the access token's claims; when falsy, fetch the
user info and, when `user.customer_id` is set, use its `id`; when the
result is still falsy raise `PranaAPIError("Could not determine customer
ID")` without issuing the device-listing request, otherwise issue it for
the resolved id.  `tokenCid` is what `TokenManager.get_customer_id`
returned, `user` the result of the user-info fetch when one happens. -/
def get_user_devices_actions (tokenCid : JVal) (user : User) : List DevAction :=
  let step1 : List DevAction × JVal :=
    if jTruthy tokenCid then ([], tokenCid)
    else
      ([.fetchUserInfo],
       match user.customer_id with
       | some e => e.id
       | none => tokenCid)
  if jTruthy step1.2 then step1.1 ++ [.listDevices step1.2]
  else step1.1 ++ [.raiseConfigError]

lemma pyOr0_some (n : Int) : pyOr0 (some n) = n := by
  simp only [pyOr0]
  split
  · rfl
  · next h =>
    simp only [bne_iff_ne, ne_eq, not_not] at h
    omega

lemma jGetD_of_hasKey (fs : List (String × JVal)) (k : String) (d : JVal)
    (h : hasKey fs k = true) : jGetD fs k d = jGet fs k := by
  unfold hasKey at h
  cases hf : fs.find? (fun p => p.1 == k) with
  | none => rw [hf] at h; simp at h
  | some p => simp [jGetD, jGet, hf]

lemma jGetD_of_not_hasKey (fs : List (String × JVal)) (k : String) (d : JVal)
    (h : hasKey fs k = false) : jGetD fs k d = d := by
  unfold hasKey at h
  cases hf : fs.find? (fun p => p.1 == k) with
  | none => simp [jGetD, hf]
  | some p => rw [hf] at h; simp at h

/-- C8: whatever the outcome of the remote logout request (success or a
raised exception), `PranaClient.logout` unconditionally clears the
locally held token pair in its `finally` block, so afterwards the token
manager holds no pair and `is_authenticated` is false. -/
theorem logout_always_clears_tokens (m : TokenManager) (remote : ReqOutcome) :
    (logout m remote).1.token_pair = none ∧
    (logout m remote).1.is_authenticated = false := by
  cases remote <;> exact ⟨rfl, rfl⟩

/-- C9: `TokenPair.from_response` reads the access token from `"token"`,
falls back to `"accessToken"` when `"token"` is absent, and defaults the
access token, refresh token and token type to `""`, `""` and `"Bearer"`
when the corresponding fields are missing; being made of `dict.get`
calls only, it is total on every response dict. -/
theorem tokenPair_from_response_fields (data : List (String × JVal)) :
    (hasKey data "token" = true →
      (TokenPair.from_response data).access_token = jGet data "token") ∧
    (hasKey data "token" = false → hasKey data "accessToken" = true →
      (TokenPair.from_response data).access_token = jGet data "accessToken") ∧
    (hasKey data "token" = false → hasKey data "accessToken" = false →
      (TokenPair.from_response data).access_token = .str "") ∧
    (hasKey data "refreshToken" = true →
      (TokenPair.from_response data).refresh_token = jGet data "refreshToken") ∧
    (hasKey data "refreshToken" = false →
      (TokenPair.from_response data).refresh_token = .str "") ∧
    (hasKey data "tokenType" = false →
      (TokenPair.from_response data).token_type = .str "Bearer") := by
  refine ⟨fun h1 => ?_, fun h1 h2 => ?_, fun h1 h2 => ?_, fun h1 => ?_,
    fun h1 => ?_, fun h1 => ?_⟩ <;>
    simp only [TokenPair.from_response] <;>
    first
      | rw [jGetD_of_hasKey _ _ _ h1]
      | rw [jGetD_of_not_hasKey _ _ _ h1, jGetD_of_hasKey _ _ _ h2]
      | rw [jGetD_of_not_hasKey _ _ _ h1, jGetD_of_not_hasKey _ _ _ h2]
      | rw [jGetD_of_not_hasKey _ _ _ h1]

/-- Witness for C9 on a concrete refresh response that carries only
`"accessToken"` and `"refreshToken"`. -/
theorem tokenPair_from_response_fields_witness :
    (TokenPair.from_response
        [("accessToken", .str "A"), ("refreshToken", .str "R")]).access_token
      = JVal.str "A" ∧
    (TokenPair.from_response
        [("accessToken", .str "A"), ("refreshToken", .str "R")]).token_type
      = JVal.str "Bearer" := by
  have h := tokenPair_from_response_fields
    [("accessToken", .str "A"), ("refreshToken", .str "R")]
  exact ⟨(h.2.1 rfl rfl).trans rfl, h.2.2.2.2.2 rfl⟩

lemma user_from_dict_gives_created_time (data : List (String × JVal)) (u : User)
    (h : User.from_dict data = some u) :
    optCreatedTime data = some u.created_time := by
  unfold User.from_dict at h
  split at h
  · next cust ten ct idd h1 h2 h3 h4 =>
    injection h with h'
    subst h'
    exact h3
  · exact absurd h (by simp)

lemma device_from_dict_gives_created_time (data : List (String × JVal)) (d : Device)
    (h : Device.from_dict data = some d) :
    optCreatedTime data = some d.created_time := by
  unfold Device.from_dict at h
  split at h
  · next prof cust ten ct idd h1 h2 h3 h4 h5 =>
    injection h with h'
    subst h'
    exact h4
  · exact absurd h (by simp)

/-- C10: when a response's `createdTime` field is present but equal to
`0`, the value is falsy, so `User.from_dict` and `Device.from_dict`
leave `created_time` absent (`None`) exactly as for a missing field,
rather than producing the zero epoch. -/
theorem created_time_zero_is_absent (data : List (String × JVal))
    (u : User) (d : Device) (h0 : jGet data "createdTime" = .int 0) :
    (User.from_dict data = some u → u.created_time = none) ∧
    (Device.from_dict data = some d → d.created_time = none) := by
  have hct : optCreatedTime data = some none := by
    simp [optCreatedTime, h0, jTruthy]
  constructor
  · intro hu
    have := user_from_dict_gives_created_time data u hu
    rw [hct] at this
    exact (Option.some_inj.mp this).symm
  · intro hd
    have := device_from_dict_gives_created_time data d hd
    rw [hct] at this
    exact (Option.some_inj.mp this).symm

/-- Witness for C10: a response whose `createdTime` is present and `0`. -/
theorem created_time_zero_is_absent_witness :
    (User.from_dict [("createdTime", .int 0)]).map (fun u => u.created_time)
      = some none ∧
    (Device.from_dict [("createdTime", .int 0)]).map (fun d => d.created_time)
      = some none := by
  obtain ⟨u, hu⟩ : ∃ u, User.from_dict [("createdTime", .int 0)] = some u := ⟨_, rfl⟩
  obtain ⟨d, hd⟩ : ∃ d, Device.from_dict [("createdTime", .int 0)] = some d := ⟨_, rfl⟩
  have h := created_time_zero_is_absent [("createdTime", .int 0)] u d rfl
  constructor
  · rw [hu, Option.map_some', h.1 hu]
  · rw [hd, Option.map_some', h.2 hd]

/-- C5: per-field lookup rule of `PranaState.from_telemetry`: a value
yielded by the telemetry snapshot is used as is; when telemetry yields
nothing (`None`) the attribute snapshot — in either of its two shapes —
is consulted through the same lookup; when both yield nothing the
field's source value is absent.  In particular a key yielding a value in
both snapshots resolves to the telemetry value, and a key yielding one
only in attributes resolves to the attribute value. -/
theorem get_value_lookup_rule (t : List (String × JVal)) (a : Attrs)
    (k : String) (v : JVal) :
    (get_telemetry_value t k = v → v.isNull = false → get_value t a k = v) ∧
    (get_telemetry_value t k = .null → get_value t a k = get_attr_value a k) ∧
    (get_telemetry_value t k = .null → get_attr_value a k = .null →
      get_value t a k = .null) := by
  refine ⟨fun h1 h2 => ?_, fun h1 => ?_, fun h1 h2 => ?_⟩ <;>
    simp only [get_value] <;> rw [h1]
  · simp [h2]
  · simp [JVal.isNull]
  · simp [JVal.isNull, h2]

/-- Witness for C5: the key `"k"` is in both snapshots (telemetry value
7, attribute value 9) and resolves to 7; with telemetry empty it
resolves to the attribute value 9. -/
theorem get_value_lookup_rule_witness :
    get_value [("k", .list [.obj [("value", .int 7)]])]
        (.dict [("k", .int 9)]) "k" = JVal.int 7 ∧
    get_value [] (.dict [("k", .int 9)]) "k" = JVal.int 9 := by
  constructor
  · exact (get_value_lookup_rule [("k", .list [.obj [("value", .int 7)]])]
      (.dict [("k", .int 9)]) "k" (.int 7)).1 rfl rfl
  · exact ((get_value_lookup_rule [] (.dict [("k", .int 9)]) "k"
      (.int 9)).2.1 rfl).trans rfl

/-- Key presence across both attribute-snapshot shapes. -/
def attrsHasKey : Attrs → String → Bool
  | .dict d, k => hasKey d k
  | .list l, k => (l.find? (fun e => (jGet e "key").eqStr k)).isSome

lemma jGet_of_not_hasKey (fs : List (String × JVal)) (k : String)
    (h : hasKey fs k = false) : jGet fs k = .null := by
  unfold hasKey at h
  cases hf : fs.find? (fun p => p.1 == k) with
  | none => simp [jGet, hf]
  | some p => rw [hf] at h; simp at h

lemma get_telemetry_value_absent (t : List (String × JVal)) (k : String)
    (h : hasKey t k = false) : get_telemetry_value t k = .null := by
  unfold hasKey at h
  unfold get_telemetry_value
  cases hf : t.find? (fun p => p.1 == k) with
  | none => rfl
  | some p => rw [hf] at h; simp at h

lemma get_attr_value_absent (a : Attrs) (k : String)
    (h : attrsHasKey a k = false) : get_attr_value a k = .null := by
  cases a with
  | dict d => exact jGet_of_not_hasKey d k h
  | list l =>
    simp only [attrsHasKey] at h
    simp only [get_attr_value]
    cases hf : l.find? (fun e => (jGet e "key").eqStr k) with
    | none => simp [hf]
    | some e => rw [hf] at h; simp at h

lemma get_value_absent (t : List (String × JVal)) (a : Attrs) (k : String)
    (h1 : hasKey t k = false) (h2 : attrsHasKey a k = false) :
    get_value t a k = .null := by
  simp [get_value, get_telemetry_value_absent t k h1,
    get_attr_value_absent a k h2, JVal.isNull]

lemma from_telemetry_supply (t : List (String × JVal)) (attrs : Option Attrs) :
    (PranaState.from_telemetry t attrs).supply_speed =
      match get_int t (normAttrs attrs) "motorsSup" with
      | some r => some (Int.fdiv r 10)
      | none => none := rfl

lemma from_telemetry_extract (t : List (String × JVal)) (attrs : Option Attrs) :
    (PranaState.from_telemetry t attrs).extract_speed =
      match get_int t (normAttrs attrs) "motorsExt" with
      | some r => some (Int.fdiv r 10)
      | none => none := rfl

lemma fdiv_ten_eq_div (v : Int) : Int.fdiv v 10 = v / 10 := by
  rw [Int.fdiv_eq_ediv]
  omega

/-- C3: a raw motor value `v` in `[0, 50]` resolved for `motorsSup` /
`motorsExt` decodes to the display speed `v // 10` (floor division);
when the key is absent from both telemetry and attributes, the decoded
speed is `None`, never a default `0`. -/
theorem motor_speed_decode (t : List (String × JVal)) (attrs : Option Attrs)
    (v : Int) :
    (get_value t (normAttrs attrs) "motorsSup" = .int v → 0 ≤ v → v ≤ 50 →
      (PranaState.from_telemetry t attrs).supply_speed = some (v / 10)) ∧
    (get_value t (normAttrs attrs) "motorsExt" = .int v → 0 ≤ v → v ≤ 50 →
      (PranaState.from_telemetry t attrs).extract_speed = some (v / 10)) ∧
    (hasKey t "motorsSup" = false →
      attrsHasKey (normAttrs attrs) "motorsSup" = false →
      (PranaState.from_telemetry t attrs).supply_speed = none) ∧
    (hasKey t "motorsExt" = false →
      attrsHasKey (normAttrs attrs) "motorsExt" = false →
      (PranaState.from_telemetry t attrs).extract_speed = none) := by
  refine ⟨fun h _ _ => ?_, fun h _ _ => ?_, fun h1 h2 => ?_, fun h1 h2 => ?_⟩
  · rw [from_telemetry_supply]
    unfold get_int
    rw [h]
    simp [pyIntOfFloat, fdiv_ten_eq_div]
  · rw [from_telemetry_extract]
    unfold get_int
    rw [h]
    simp [pyIntOfFloat, fdiv_ten_eq_div]
  · rw [from_telemetry_supply]
    unfold get_int
    rw [get_value_absent t (normAttrs attrs) "motorsSup" h1 h2]
  · rw [from_telemetry_extract]
    unfold get_int
    rw [get_value_absent t (normAttrs attrs) "motorsExt" h1 h2]

/-- Witness for C3: raw supply value 30 decodes to display speed 3 while
the absent extract value decodes to `None`. -/
theorem motor_speed_decode_witness :
    (PranaState.from_telemetry [("motorsSup", .list [.obj [("value", .int 30)]])]
        none).supply_speed = some 3 ∧
    (PranaState.from_telemetry [("motorsSup", .list [.obj [("value", .int 30)]])]
        none).extract_speed = none := by
  have h := motor_speed_decode
    [("motorsSup", .list [.obj [("value", .int 30)]])] none 30
  refine ⟨?_, h.2.2.2 rfl rfl⟩
  have h1 := h.1 rfl (by norm_num) (by norm_num)
  simpa using h1

lemma from_telemetry_sleep_seconds (t : List (String × JVal))
    (attrs : Option Attrs) :
    (PranaState.from_telemetry t attrs).sleep_seconds =
      pyOr0 (get_int t (normAttrs attrs) "sleepSecondsLsb") +
      pyOr0 (get_int t (normAttrs attrs) "sleepSecondsMsb") * 256 := rfl

/-- Modelled from the claim's words, for comparison with the code: sleep
seconds computed by reading both bytes from the attribute snapshot only
(never from telemetry), each defaulting to 0 when missing. -/
def sleepSecondsAttrOnly (attributes : Attrs) : Int :=
  let lsb := pyOr0 (match get_attr_value attributes "sleepSecondsLsb" with
    | .null => none
    | v => pyIntOfFloat v)
  let msb := pyOr0 (match get_attr_value attributes "sleepSecondsMsb" with
    | .null => none
    | v => pyIntOfFloat v)
  lsb + msb * 256

/-- Counterexample to C1 as stated: when `sleepSecondsLsb` is present in
telemetry (value 30) and the attribute snapshot carries different bytes
(lsb 5, msb 1), the code decodes 30 + 1×256 = 286 from the
telemetry-first lookup, not the 5 + 1×256 = 261 that reading both bytes
from the attribute snapshot would give. -/
theorem sleep_seconds_not_attr_only :
    (PranaState.from_telemetry
        [("sleepSecondsLsb", .list [.obj [("value", .int 30)]])]
        (some (.dict [("sleepSecondsLsb", .int 5), ("sleepSecondsMsb", .int 1)]))
      ).sleep_seconds = 286 ∧
    sleepSecondsAttrOnly
        (.dict [("sleepSecondsLsb", .int 5), ("sleepSecondsMsb", .int 1)]) = 261 ∧
    (286 : Int) ≠ 261 := by
  refine ⟨rfl, rfl, by norm_num⟩

/-- C1 amended: the decoded sleep-timer total seconds equal the low byte
plus the high byte times 256, where each byte is resolved by the
standard telemetry-first-then-attributes lookup (not from attributes
alone) and defaults to 0 when it resolves to nothing; lsb 30 and msb 1
yield 286 and two missing bytes yield 0. -/
theorem sleep_seconds_decode (t : List (String × JVal)) (attrs : Option Attrs)
    (lsb msb : Int) :
    (get_int t (normAttrs attrs) "sleepSecondsLsb" = some lsb →
      get_int t (normAttrs attrs) "sleepSecondsMsb" = some msb →
      (PranaState.from_telemetry t attrs).sleep_seconds = lsb + msb * 256) ∧
    (get_int t (normAttrs attrs) "sleepSecondsLsb" = some lsb →
      get_int t (normAttrs attrs) "sleepSecondsMsb" = none →
      (PranaState.from_telemetry t attrs).sleep_seconds = lsb) ∧
    (get_int t (normAttrs attrs) "sleepSecondsLsb" = none →
      get_int t (normAttrs attrs) "sleepSecondsMsb" = some msb →
      (PranaState.from_telemetry t attrs).sleep_seconds = msb * 256) ∧
    (get_int t (normAttrs attrs) "sleepSecondsLsb" = none →
      get_int t (normAttrs attrs) "sleepSecondsMsb" = none →
      (PranaState.from_telemetry t attrs).sleep_seconds = 0) := by
  refine ⟨fun h1 h2 => ?_, fun h1 h2 => ?_, fun h1 h2 => ?_, fun h1 h2 => ?_⟩ <;>
    rw [from_telemetry_sleep_seconds, h1, h2]
  · rw [pyOr0_some, pyOr0_some]
  · rw [pyOr0_some]; simp [pyOr0]
  · rw [pyOr0_some]; simp [pyOr0]
  · simp [pyOr0]

/-- Witness for C1 amended: lsb 30 and msb 1 (found in the attribute
snapshot with empty telemetry) decode to 286 total seconds. -/
theorem sleep_seconds_decode_witness :
    (PranaState.from_telemetry []
        (some (.dict [("sleepSecondsLsb", .int 30), ("sleepSecondsMsb", .int 1)]))
      ).sleep_seconds = 286 := by
  have h := (sleep_seconds_decode []
    (some (.dict [("sleepSecondsLsb", .int 30), ("sleepSecondsMsb", .int 1)]))
    30 1).1 rfl rfl
  simpa using h

/-- Modelled from the claim's words, for comparison with the code's
`classify401`: scan case-sensitively for `"Invalid username or
password"`, then case-INsensitively for `"not active"`, then
case-insensitively for `"expired"`, else the generic kind. -/
def classify401ClaimCI (message : String) : AuthErrorKind :=
  if strContains message "Invalid username or password" then .invalidCredentials
  else if strContains (strToLower message) "not active" then .userNotActive
  else if strContains (strToLower message) "expired" then .tokenExpired
  else .authenticationFailed

/-- Counterexample to C2 as stated: on the 401 message
`"Account Not Active"` the code's classifier falls through to the
generic authentication-failure kind (its `"not active"` scan is
case-sensitive), while the claimed case-insensitive scan would yield the
account-inactive kind. -/
theorem classify401_not_case_insensitive :
    classify401 "Account Not Active" = .authenticationFailed ∧
    classify401ClaimCI "Account Not Active" = .userNotActive ∧
    AuthErrorKind.authenticationFailed ≠ AuthErrorKind.userNotActive := by
  refine ⟨rfl, rfl, by decide⟩

/-- C2 amended: for every 401 message text, the classifier scans
case-sensitively for `"Invalid username or password"` (invalid
credentials), then case-SENSITIVELY for `"not active"` (account
inactive), then case-insensitively for `"expired"` (token expired), and
falls back to the generic authentication-failure kind — i.e. it agrees
with the ordered rule list `classify401Rules`, in which only the
`"expired"` scan is case-insensitive. -/
theorem classify401_follows_rules (m : String) :
    classify401 m = classify401Amended m := by
  have he : strToLower "expired" = "expired" := rfl
  simp only [classify401, classify401Amended, classify401Rules, List.find?]
  by_cases h1 : strContains m "Invalid username or password" <;>
    by_cases h2 : strContains m "not active" <;>
      by_cases h3 : strContains (strToLower m) "expired" <;>
        simp [h1, h2, h3, he]

/-- C4: for every token, decoder behaviour and clock `now ≥ 0` (as
`time.time()` is): a decodable payload carrying an integer `exp` claim
reports expired exactly when `now ≥ exp − 60` (the 60-second buffer of
the default `buffer_seconds`); a wrong segment count or an undecodable
payload reports expired; an absent `exp` claim reports expired. -/
theorem is_token_expired_spec (d : String → Option (List (String × JVal)))
    (now : Int) (token : String) (e : Int) (hnow : 0 ≤ now) :
    (jGet (decode_jwt_payload d token) "exp" = .int e →
      is_token_expired d now token 60 = some (decide (now ≥ e - 60))) ∧
    ((splitOnDot token).length ≠ 3 →
      is_token_expired d now token 60 = some true) ∧
    (∀ hd pl sg, splitOnDot token = [hd, pl, sg] → d (padB64 pl) = none →
      is_token_expired d now token 60 = some true) ∧
    (jGet (decode_jwt_payload d token) "exp" = .null →
      is_token_expired d now token 60 = some true) := by
  refine ⟨fun hexp => ?_, fun hlen => ?_, fun hd pl sg hs hdec => ?_,
    fun hexp => ?_⟩
  · unfold is_token_expired
    cases hpe : (decode_jwt_payload d token).isEmpty with
    | true =>
      exfalso
      have hnil : decode_jwt_payload d token = [] := by
        cases hdec : decode_jwt_payload d token with
        | nil => rfl
        | cons a l => rw [hdec] at hpe; simp at hpe
      rw [hnil] at hexp
      simp [jGet] at hexp
    | false =>
      simp only [hpe, Bool.false_eq_true, if_false]
      rw [hexp]
      by_cases he : e = 0
      · subst he
        simp only [bne_self_eq_false, if_false]
        have h60 : decide (now ≥ (0 : Int) - 60) = true :=
          decide_eq_true (by omega)
        rw [h60]
        rfl
      · have hb : (e != 0) = true := by simp [bne_iff_ne, he]
        simp [hb]
  · have hnil : decode_jwt_payload d token = [] := by
      unfold decode_jwt_payload
      rcases hs : splitOnDot token with _ | ⟨a, _ | ⟨b, _ | ⟨c, _ | l⟩⟩⟩
      · rfl
      · rfl
      · rfl
      · exact absurd (by rw [hs]; rfl) hlen
      · rfl
    simp [is_token_expired, hnil]
  · have hnil : decode_jwt_payload d token = [] := by
      unfold decode_jwt_payload
      rw [hs]
      show (match d (padB64 pl) with
        | some obj => obj
        | none => ([] : List (String × JVal))) = []
      rw [hdec]
    simp [is_token_expired, hnil]
  · unfold is_token_expired
    cases hpe : (decode_jwt_payload d token).isEmpty with
    | true => simp [hpe]
    | false =>
      simp only [hpe, Bool.false_eq_true, if_false]
      rw [hexp]

/-- Constant payload decoder used by the C4 witness: every payload
decodes to `{"exp": 1000}`. -/
def decExp1000 : String → Option (List (String × JVal)) :=
  fun _ => some [("exp", .int 1000)]

/-- Witness for C4: with the clock at 100 and a well-formed token whose
payload carries `exp = 1000`, the check reports not expired
(100 < 1000 − 60). -/
theorem is_token_expired_spec_witness :
    is_token_expired decExp1000 100 "h.p.s" 60 = some false := by
  have h := (is_token_expired_spec decExp1000 100 "h.p.s" 1000
    (by norm_num)).1 rfl
  simpa using h

/-- C6: `decode_jwt_payload` is total (every failure path is caught):
a wrong segment count yields the empty dict, an undecodable payload
(bad base64 or bad JSON, i.e. `decodePart` failing) yields the empty
dict, a decodable payload is returned, and on the empty dict the derived
claim readers (user id, customer id, expiry) yield absent results
instead of propagating an exception. -/
theorem decode_jwt_payload_safe (d : String → Option (List (String × JVal)))
    (token : String) :
    ((splitOnDot token).length ≠ 3 → decode_jwt_payload d token = []) ∧
    (∀ hd pl sg, splitOnDot token = [hd, pl, sg] → d (padB64 pl) = none →
      decode_jwt_payload d token = []) ∧
    (∀ hd pl sg obj, splitOnDot token = [hd, pl, sg] →
      d (padB64 pl) = some obj → decode_jwt_payload d token = obj) ∧
    (decode_jwt_payload d token = [] →
      get_user_id_from_token d token = .null ∧
      get_customer_id_from_token d token = .null ∧
      get_token_expiry d token = .null) := by
  refine ⟨fun hlen => ?_, fun hd pl sg hs hdec => ?_,
    fun hd pl sg obj hs hdec => ?_, fun hnil => ?_⟩
  · unfold decode_jwt_payload
    rcases hs : splitOnDot token with _ | ⟨a, _ | ⟨b, _ | ⟨c, _ | l⟩⟩⟩
    · rfl
    · rfl
    · rfl
    · exact absurd (by rw [hs]; rfl) hlen
    · rfl
  · unfold decode_jwt_payload
    rw [hs]
    show (match d (padB64 pl) with
      | some obj => obj
      | none => ([] : List (String × JVal))) = []
    rw [hdec]
  · unfold decode_jwt_payload
    rw [hs]
    show (match d (padB64 pl) with
      | some obj => obj
      | none => ([] : List (String × JVal))) = obj
    rw [hdec]
  · unfold get_user_id_from_token get_customer_id_from_token get_token_expiry
    rw [hnil]
    exact ⟨rfl, rfl, rfl⟩

/-- Witness for C6: a one-segment token decodes to the empty dict and
the user-id reader yields an absent result. -/
theorem decode_jwt_payload_safe_witness :
    decode_jwt_payload decExp1000 "abc" = [] ∧
    get_user_id_from_token decExp1000 "abc" = JVal.null := by
  have h := decode_jwt_payload_safe decExp1000 "abc"
  have hnil := h.1 (by decide)
  exact ⟨hnil, (h.2.2.2 hnil).1⟩

/-- C7: `get_user_devices` resolves the customer id from the access
token's `customerId` claim first (issuing the listing directly, with no
user-info fetch); when the claim yields nothing it first performs the
user-info fetch, then lists for a truthy fetched id; when neither source
yields an id it raises the configuration error and never issues the
device-listing request (every issued listing carries a truthy id). -/
theorem get_user_devices_resolution (tokenCid : JVal) (user : User) :
    (jTruthy tokenCid = true →
      get_user_devices_actions tokenCid user = [.listDevices tokenCid]) ∧
    (jTruthy tokenCid = false →
      (get_user_devices_actions tokenCid user).head? = some .fetchUserInfo) ∧
    (∀ e, jTruthy tokenCid = false → user.customer_id = some e →
      jTruthy e.id = true →
      get_user_devices_actions tokenCid user
        = [.fetchUserInfo, .listDevices e.id]) ∧
    (jTruthy tokenCid = false → user.customer_id = none →
      get_user_devices_actions tokenCid user
        = [.fetchUserInfo, .raiseConfigError]) ∧
    (∀ e, jTruthy tokenCid = false → user.customer_id = some e →
      jTruthy e.id = false →
      get_user_devices_actions tokenCid user
        = [.fetchUserInfo, .raiseConfigError]) ∧
    (∀ c, DevAction.listDevices c ∈ get_user_devices_actions tokenCid user →
      jTruthy c = true) := by
  refine ⟨fun h1 => ?_, fun h1 => ?_, fun e h1 h2 h3 => ?_, fun h1 h2 => ?_,
    fun e h1 h2 h3 => ?_, fun c hc => ?_⟩
  · simp [get_user_devices_actions, h1]
  · cases hcu : user.customer_id with
    | none => simp [get_user_devices_actions, h1, hcu]
    | some e =>
      by_cases he : jTruthy e.id <;>
        simp [get_user_devices_actions, h1, hcu, he]
  · simp [get_user_devices_actions, h1, h2, h3]
  · simp [get_user_devices_actions, h1, h2]
  · simp [get_user_devices_actions, h1, h2, h3]
  · by_cases h1 : jTruthy tokenCid
    · simp [get_user_devices_actions, h1] at hc
      rw [hc]
      exact h1
    · cases hcu : user.customer_id with
      | none =>
        simp [get_user_devices_actions, h1, hcu] at hc
      | some e =>
        by_cases he : jTruthy e.id
        · simp [get_user_devices_actions, h1, hcu, he] at hc
          rw [hc]
          exact he
        · simp [get_user_devices_actions, h1, hcu, he] at hc

/-- Concrete fetched user for the C7 witness: carries the customer
entity id `"cust1"`. -/
def userWithCustomer : User :=
  { id := ⟨.str "", .str ""⟩, email := .str "", name := .str "",
    first_name := .str "", last_name := .str "", authority := .str "",
    customer_id := some ⟨.str "cust1", .str "CUSTOMER"⟩, tenant_id := none,
    additional_info := .obj [], created_time := none }

/-- Witness for C7: with no token claim and a fetched user carrying
customer id `"cust1"`, the client fetches the user info and then lists
devices for `"cust1"`. -/
theorem get_user_devices_resolution_witness :
    get_user_devices_actions .null userWithCustomer
      = [.fetchUserInfo, .listDevices (.str "cust1")] :=
  (get_user_devices_resolution .null userWithCustomer).2.2.1
    ⟨.str "cust1", .str "CUSTOMER"⟩ rfl rfl rfl
